import Mathlib

/-!
Verification development for the SafeGuard risk-scanning and policy-decision
engine of the `usdc-hackathon-openclaw-skill` repository.

The scanned hex strings are modelled as lists of Unicode code points
(`List Nat`), which is exactly how Python treats `str` values: slicing,
lexicographic comparison and `.lower()` all operate on code points.

Sources embedded here:
  * `scripts/safeguard_scan.py` — `scan_bytecode` (opcode walk, selector
    substring search, clamped risk score) and the verdict threshold mapping
    used by its callers (`scan_address` / `main`);
  * `scripts/contract_scanner.py` — `scan_bytecode` (same opcode walk,
    case-sensitive selector search, unclamped risk score, risk level);
  * `scripts/safeguard.py` — `max_decision`, `eval_skill`, `eval_payment`.
-/

/-- Code points of a string literal, the model of a Python `str` value. -/
def cp (s : String) : List Nat := s.toList.map Char.toNat

/-- Model of Python ASCII lower-casing on one code point (`str.lower` of the
source only ever matters on ASCII hex characters here). -/
def lowCp (n : Nat) : Nat := if 65 ≤ n ∧ n ≤ 90 then n + 32 else n

/-- Clamp an index to `[0, n]` the way Python slicing does: negative indices
count from the end, then everything is clamped into range. -/
def pyBound (n : Nat) (a : Int) : Nat :=
  (min (max (if a < 0 then a + (n : Int) else a) 0) (n : Int)).toNat

/-- Python slice `s[a:b]` on a code-point list. -/
def pyslice (s : List Nat) (a b : Int) : List Nat :=
  let a' := pyBound s.length a
  let b' := pyBound s.length b
  (s.drop a').take (b' - a')

/-- Python lexicographic `<=` on strings (code-point order, a strict prefix
is smaller). -/
def lexLe : List Nat → List Nat → Bool
  | [], _ => true
  | _ :: _, [] => false
  | a :: as, b :: bs => if a < b then true else if b < a then false else lexLe as bs

/-- One hex digit of `int(_, 16)`; both letter cases accepted. -/
def hexDigit (n : Nat) : Option Nat :=
  if 48 ≤ n ∧ n ≤ 57 then some (n - 48)
  else if 97 ≤ n ∧ n ≤ 102 then some (n - 87)
  else if 65 ≤ n ∧ n ≤ 70 then some (n - 55)
  else none

/-- Model of Python `int(s, 16)` on the byte slices taken by the scanner:
`none` models the `ValueError` raised on an empty or non-hex string.
(The slices reaching this function never carry signs or whitespace, because
they are bounded below by `"60"` in code-point order.) -/
def hexVal : List Nat → Option Nat
  | [] => none
  | ds => ds.foldl (fun acc c => acc.bind fun a => (hexDigit c).map fun d => 16 * a + d) (some 0)

/-- Prefix test on code-point lists (used for the substring search). -/
def pfx : List Nat → List Nat → Bool
  | [], _ => true
  | _ :: _, [] => false
  | a :: as, b :: bs => a = b && pfx as bs

/-- Python substring containment `needle in hay` on code-point lists. -/
def hasSub (needle : List Nat) : List Nat → Bool
  | [] => pfx needle []
  | h :: t => if pfx needle (h :: t) then true else hasSub needle t

/-- `bytecode[2:] if bytecode.startswith("0x") else bytecode` — the `0x`
prefix strip shared by both scanners (case-sensitive, as in the source). -/
def strip0x (s : List Nat) : List Nat :=
  if s.take 2 = cp "0x" then s.drop 2 else s

/-- Result of running a piece of fuelled Python code: a value, an uncaught
exception (`exn`), or fuel exhaustion (`spin`). -/
inductive PyRes (α : Type) where
  | val : α → PyRes α
  | exn : PyRes α
  | spin : PyRes α
deriving DecidableEq, Repr

/-- The opcode-occurrence counting loop shared verbatim by
`contract_scanner.scan_bytecode` (lines 100–111) and
`safeguard_scan.scan_bytecode` (lines 107–117):

```
i = 0; count = 0
while i < len(code):
    byte = code[i:i+2].lower()
    if byte == opc: count += 1
    if "60" <= byte <= "7f":
        push_size = int(byte, 16) - 0x5f
        i += 2 + push_size * 2
    else:
        i += 2
```

The cursor `i` is an `Int` because the `push_size` arithmetic can drive it
negative on malformed input. -/
def countOpcode (opc code : List Nat) : Nat → Int → Nat → PyRes Nat
  | fuel, i, count =>
    if i < (code.length : Int) then
      match fuel with
      | 0 => .spin
      | f + 1 =>
        let byte := (pyslice code i (i + 2)).map lowCp
        let count' := if byte = opc then count + 1 else count
        if lexLe (cp "60") byte && lexLe byte (cp "7f") then
          match hexVal byte with
          | none => .exn
          | some v => countOpcode opc code f (i + 2 + ((v : Int) - 95) * 2) count'
        else countOpcode opc code f (i + 2) count'
    else .val count

/-- One iteration of the same while-loop, as a step function on the loop
state `some (i, count)`; `none` means the loop has finished (normal exit or
an uncaught exception).  Used to reason about non-termination, which a
fuelled function cannot express directly. -/
def scanStep (opc code : List Nat) : Option (Int × Nat) → Option (Int × Nat)
  | none => none
  | some (i, count) =>
    if i < (code.length : Int) then
      let byte := (pyslice code i (i + 2)).map lowCp
      let count' := if byte = opc then count + 1 else count
      if lexLe (cp "60") byte && lexLe byte (cp "7f") then
        match hexVal byte with
        | none => none
        | some v => some (i + 2 + ((v : Int) - 95) * 2, count')
      else some (i + 2, count')
    else none

/-- A single quote character, used to build Python `repr`-style strings. -/
def apos : String := String.singleton (Char.ofNat 39)

/-- Severity weight table `severity_scores` of `contract_scanner.scan_bytecode`
(line 129); `.get(_, 0)` semantics for unknown severities. -/
def severity_scores (sev : String) : Nat :=
  if sev = "CRITICAL" then 40
  else if sev = "HIGH" then 20
  else if sev = "MEDIUM" then 10
  else if sev = "LOW" then 5
  else 0

namespace SafeguardScan

/-- One entry of `PATTERNS` in `safeguard_scan.py`. -/
structure SGPattern where
  opcode : String
  name : String
  severity : String
  score : Nat
  desc : String

/-- `PATTERNS` of `safeguard_scan.py` (lines 40–51). -/
def sgPatterns : List SGPattern :=
  [⟨"ff", "selfdestruct", "CRITICAL", 40,
      "Can self-destruct, destroying contract and draining ETH balance"⟩,
   ⟨"f4", "delegatecall", "HIGH", 20,
      "Executes external code in this contract" ++ apos ++ "s storage context (proxy/upgrade risk)"⟩,
   ⟨"f2", "callcode", "HIGH", 20,
      "Deprecated CALLCODE — potential proxy attack vector"⟩,
   ⟨"f5", "create2", "MEDIUM", 10,
      "CREATE2 — deploys contracts at predictable addresses (metamorphic risk)"⟩,
   ⟨"32", "tx.origin", "MEDIUM", 10,
      "Uses tx.origin — vulnerable to phishing/relay attacks"⟩]

/-- One entry of the `SELECTORS` table in `safeguard_scan.py` (keys carry no
`0x` prefix there). -/
structure SGSelEntry where
  sel : String
  name : String
  risk : String
  note : String

/-- `SELECTORS` of `safeguard_scan.py` (lines 55–62). -/
def sgSelectorTable : List SGSelEntry :=
  [⟨"095ea7b3", "approve(address,uint256)", "MEDIUM",
      "Check for unlimited approvals (type(uint256).max)"⟩,
   ⟨"42966c68", "burn(uint256)", "HIGH", "Token burn — irreversible"⟩,
   ⟨"715018a6", "renounceOwnership()", "HIGH",
      "Ownership renounced — no admin recovery possible"⟩,
   ⟨"f2fde38b", "transferOwnership(address)", "HIGH",
      "Ownership transfer — verify recipient"⟩,
   ⟨"3659cfe6", "upgradeTo(address)", "HIGH",
      "Proxy upgrade — contract logic can change"⟩,
   ⟨"4f1ef286", "upgradeToAndCall(address,bytes)", "HIGH",
      "Proxy upgrade + call — logic change + execution"⟩]

/-- A findings dict produced by `safeguard_scan.scan_bytecode`. -/
structure SGFinding where
  name : String
  severity : String
  desc : String
  count : Nat
deriving DecidableEq

/-- A selector hit dict: `{"selector": "0x"+sel, **info}`. -/
structure SGSelector where
  selector : String
  name : String
  risk : String
  note : String
deriving DecidableEq

/-- The dict returned by `safeguard_scan.scan_bytecode`.  The empty-contract
branch (line 99) returns a dict carrying only `findings` and `risk_score`,
so the `selectors` and `bytecode_size` keys are `Option`s. -/
structure SGResult where
  findings : List SGFinding
  selectors : Option (List SGSelector)
  risk_score : Nat
  bytecode_size : Option Nat
deriving DecidableEq

/-- The pattern loop of `safeguard_scan.scan_bytecode` (lines 104–120):
runs `countOpcode` per pattern, collects a finding and accumulates
`total_score += score * count` whenever `count > 0`. -/
def runPatterns (code : List Nat) (fuel : Nat) : List SGPattern → PyRes (List SGFinding × Nat)
  | [] => .val ([], 0)
  | p :: ps =>
    match countOpcode ((cp p.opcode).map lowCp) code fuel 0 0 with
    | .spin => .spin
    | .exn => .exn
    | .val cnt =>
      match runPatterns code fuel ps with
      | .spin => .spin
      | .exn => .exn
      | .val (fs, ts) =>
        if 0 < cnt then .val (⟨p.name, p.severity, p.desc, cnt⟩ :: fs, p.score * cnt + ts)
        else .val (fs, ts)

/-- The selector pass of `safeguard_scan.scan_bytecode` (lines 123–126):
`if sel in code.lower()`, case-insensitive via the `.lower()`. -/
def selectorScan (code : List Nat) : List SGSelector :=
  (sgSelectorTable.filter (fun e => hasSub (cp e.sel) (code.map lowCp))).map
    (fun e => ⟨"0x" ++ e.sel, e.name, e.risk, e.note⟩)

/-- `safeguard_scan.scan_bytecode` (lines 94–128): strip the `0x` prefix,
return the synthetic empty-contract finding with `risk_score` 100 when the
body is shorter than one byte, otherwise run the pattern walk and the
selector search and clamp the score with `min(total_score, 100)`. -/
def scan_bytecode (fuel : Nat) (code_hex : List Nat) : PyRes SGResult :=
  let code := strip0x code_hex
  if code.length < 2 then
    .val ⟨[⟨"empty_contract", "CRITICAL", "No bytecode (EOA or destroyed)", 1⟩], none, 100, none⟩
  else
    match runPatterns code fuel sgPatterns with
    | .spin => .spin
    | .exn => .exn
    | .val (fs, total) =>
      .val ⟨fs, some (selectorScan code), min total 100, some (code.length / 2)⟩

/-- The score→verdict mapping applied to `scan_bytecode`'s result by its
callers `scan_address` (lines 153–163) and `main` (line 430). -/
def verdictForScore (s : Nat) : String :=
  if s = 0 then "SAFE"
  else if s < 20 then "LOW_RISK"
  else if s < 40 then "MEDIUM_RISK"
  else if s < 60 then "HIGH_RISK"
  else "BLOCK"

end SafeguardScan

namespace ContractScanner

/-- One entry of `PATTERNS` in `contract_scanner.py`. -/
structure CTPattern where
  opcode : String
  name : String
  severity : String
  description : String

/-- `PATTERNS` of `contract_scanner.py` (lines 15–46). -/
def ctPatterns : List CTPattern :=
  [⟨"ff", "selfdestruct", "CRITICAL", "Contract can self-destruct, draining all funds"⟩,
   ⟨"f4", "delegatecall", "HIGH",
      "Uses delegatecall — can execute arbitrary code in contract context"⟩,
   ⟨"f2", "callcode", "HIGH", "Uses deprecated CALLCODE — potential proxy attack vector"⟩,
   ⟨"f5", "create2", "MEDIUM", "Uses CREATE2 — can deploy contracts at predictable addresses"⟩,
   ⟨"32", "tx.origin", "MEDIUM", "Uses tx.origin — vulnerable to phishing attacks"⟩]

/-- One entry of `SUSPICIOUS_SELECTORS` in `contract_scanner.py` (keys carry
a `0x` prefix there, stripped before the substring search). -/
structure CTSelEntry where
  sel : String
  name : String
  risk : String
  note : String

/-- `SUSPICIOUS_SELECTORS` of `contract_scanner.py` (lines 50–58). -/
def ctSelectorTable : List CTSelEntry :=
  [⟨"0xa9059cbb", "transfer(address,uint256)", "LOW", "Standard ERC20 — check context"⟩,
   ⟨"0x095ea7b3", "approve(address,uint256)", "MEDIUM",
      "Approval — check for unlimited approvals"⟩,
   ⟨"0x70a08231", "balanceOf(address)", "LOW", "Read-only"⟩,
   ⟨"0x23b872dd", "transferFrom(address,address,uint256)", "MEDIUM",
      "Requires prior approval"⟩,
   ⟨"0x42966c68", "burn(uint256)", "HIGH", "Token burn — irreversible"⟩,
   ⟨"0x715018a6", "renounceOwnership()", "HIGH", "Ownership renounced — no admin recovery"⟩,
   ⟨"0xf2fde38b", "transferOwnership(address)", "HIGH", "Ownership transfer — check recipient"⟩]

/-- A findings dict of the normal path of `contract_scanner.scan_bytecode`. -/
structure CTFinding where
  name : String
  severity : String
  description : String
  occurrences : Nat
deriving DecidableEq

/-- A selector hit dict `{**info, "selector": selector}`. -/
structure CTSelFound where
  name : String
  risk : String
  note : String
  selector : String
deriving DecidableEq

/-- The value returned by `contract_scanner.scan_bytecode`: the empty-contract
branch (lines 91–93) returns a bare one-element findings *list* (no score, no
risk level), while the normal path (lines 141–147) returns a report dict. -/
inductive CTResult where
  | emptyRes (name severity description : String)
  | report (bytecodeSize riskScore : Nat) (riskLevel : String)
      (findings : List CTFinding) (knownSelectors : List CTSelFound)
deriving DecidableEq

/-- The pattern loop of `contract_scanner.scan_bytecode` (lines 96–119). -/
def runPatterns (code : List Nat) (fuel : Nat) : List CTPattern → PyRes (List CTFinding)
  | [] => .val []
  | p :: ps =>
    match countOpcode ((cp p.opcode).map lowCp) code fuel 0 0 with
    | .spin => .spin
    | .exn => .exn
    | .val cnt =>
      match runPatterns code fuel ps with
      | .spin => .spin
      | .exn => .exn
      | .val fs =>
        if 0 < cnt then .val (⟨p.name, p.severity, p.description, cnt⟩ :: fs)
        else .val fs

/-- Risk score of `contract_scanner.scan_bytecode` (lines 129–131):
`sum(severity_scores.get(severity, 0) * occurrences)` — NOT clamped. -/
def riskScoreOf (fs : List CTFinding) : Nat :=
  (fs.map fun f => severity_scores f.severity * f.occurrences).sum

/-- Risk level thresholds of `contract_scanner.scan_bytecode` (lines 134–139). -/
def riskLevelOf (s : Nat) : String :=
  if 60 ≤ s then "DENY" else if 20 ≤ s then "REVIEW" else "APPROVE"

/-- `contract_scanner.scan_bytecode` (lines 85–147).  The selector search
(line 125) is `if sel_hex in code:` on the RAW body — case-sensitive, unlike
the lower-cased opcode walk. -/
def scan_bytecode (fuel : Nat) (bytecode : List Nat) : PyRes CTResult :=
  let code := strip0x bytecode
  if code.length < 2 then
    .val (.emptyRes "empty_contract" "CRITICAL" "Contract has no bytecode (EOA or destroyed)")
  else
    match runPatterns code fuel ctPatterns with
    | .spin => .spin
    | .exn => .exn
    | .val fs =>
      let sels := (ctSelectorTable.filter (fun e => hasSub ((cp e.sel).drop 2) code)).map
        (fun e => CTSelFound.mk e.name e.risk e.note e.sel)
      let score := riskScoreOf fs
      .val (.report (code.length / 2) score (riskLevelOf score) fs sels)

end ContractScanner

/-- Is a code point one of Python str.strip's ASCII whitespace characters. -/
def isPySpace (n : Nat) : Bool :=
  n = 32 || n = 9 || n = 10 || n = 13 || n = 11 || n = 12

/-- Model of Python `str.strip()` (ASCII whitespace). -/
def pyStrip (s : List Nat) : List Nat :=
  ((s.dropWhile isPySpace).reverse.dropWhile isPySpace).reverse

/-- Python string `<=` on Lean strings via code points. -/
def strLeB (a b : String) : Bool := lexLe (cp a) (cp b)

/-- Ascending insertion into a sorted list. -/
def insertLe (le : String → String → Bool) (x : String) : List String → List String
  | [] => [x]
  | y :: ys => if le x y then x :: y :: ys else y :: insertLe le x ys

/-- Ascending insertion sort — the model of Python `sorted` (on the distinct
elements of a set both produce the unique ascending ordering). -/
def isort (le : String → String → Bool) : List String → List String
  | [] => []
  | x :: xs => insertLe le x (isort le xs)

/-- Python `repr` of a list of strings, e.g. `['a', 'b']`, as interpolated by
the f-string `f"Risky permissions: {sorted(risky)}"`. -/
def pyReprList (xs : List String) : String :=
  "[" ++ String.intercalate ", " (xs.map (fun s => apos ++ s ++ apos)) ++ "]"

/-- `reasons or ["OK"]` — Python list truthiness. -/
def reasonsOrOK (xs : List String) : List String := if xs = [] then ["OK"] else xs

namespace Safeguard

/-- The three policy verdicts of `safeguard.py` (`decision`, line 13–15). -/
inductive Decision where
  | APPROVE
  | REVIEW
  | DENY
deriving DecidableEq, Repr

/-- The `order` dict of `max_decision` (line 19). -/
def order : Decision → Nat
  | .APPROVE => 0
  | .REVIEW => 1
  | .DENY => 2

/-- `max_decision` of `safeguard.py` (lines 18–20):
`a if order[a] >= order[b] else b`. -/
def max_decision (a b : Decision) : Decision :=
  if order b ≤ order a then a else b

/-- A skill request as consumed by `eval_skill`; fields already carry the
`skill.get(_, default)` results. -/
structure Skill where
  author : String
  source : String
  requested_permissions : List String

/-- The policy fields consumed by `eval_skill`; each list models the
corresponding `policy.get(...)` result (missing ⇒ `[]` / `False`). -/
structure SkillPolicy where
  allowlist_skill_authors : List String
  denylist_skill_authors : List String
  allowlist_skill_sources : List String
  denylist_skill_sources : List String
  risky_permissions : List String
  block_new_skills : Bool

/-- The deny-list check of `eval_skill` (line 34):
`author in deny_authors or source in deny_sources` (after `.strip()`). -/
def skillDenyHit (skill : Skill) (policy : SkillPolicy) : Bool :=
  (policy.denylist_skill_authors.map cp).contains (pyStrip (cp skill.author)) ||
  (policy.denylist_skill_sources.map cp).contains (pyStrip (cp skill.source))

/-- Check (2) of `eval_skill` (line 37):
`author and author not in allow_authors and allow_authors`. -/
def authorMiss (skill : Skill) (policy : SkillPolicy) : Bool :=
  let author := pyStrip (cp skill.author)
  author ≠ [] && !(policy.allowlist_skill_authors.map cp).contains author &&
    policy.allowlist_skill_authors ≠ []

/-- Check (3) of `eval_skill` (line 40):
`source and source not in allow_sources and allow_sources`. -/
def sourceMiss (skill : Skill) (policy : SkillPolicy) : Bool :=
  let source := pyStrip (cp skill.source)
  source ≠ [] && !(policy.allowlist_skill_sources.map cp).contains source &&
    policy.allowlist_skill_sources ≠ []

/-- `sorted(set(requested_permissions) & set(risky_permissions))`
(line 43–45): the sorted list of the distinct risky permissions requested. -/
def riskySorted (skill : Skill) (policy : SkillPolicy) : List String :=
  isort strLeB ((skill.requested_permissions.filter
    (fun p => policy.risky_permissions.contains p)).dedup)

/-- `eval_skill` of `safeguard.py` (lines 23–50). -/
def eval_skill (skill : Skill) (policy : SkillPolicy) : Decision × List String :=
  if skillDenyHit skill policy then (.DENY, ["Denied author/source"])
  else
    let d1 := if authorMiss skill policy then Decision.REVIEW else .APPROVE
    let r1 := if authorMiss skill policy then ["Author not in allowlist"] else []
    let d2 := if sourceMiss skill policy then max_decision d1 .REVIEW else d1
    let r2 := if sourceMiss skill policy then r1 ++ ["Source not in allowlist"] else r1
    let risky := riskySorted skill policy
    let d3 := if risky ≠ [] then max_decision d2 .REVIEW else d2
    let r3 := if risky ≠ [] then r2 ++ ["Risky permissions: " ++ pyReprList risky] else r2
    let d4 := if policy.block_new_skills then max_decision d3 .REVIEW else d3
    let r4 := if policy.block_new_skills then r3 ++ ["Block new skills enabled"] else r3
    (d4, reasonsOrOK r4)

/-- A payment request as consumed by `eval_payment`; `amount` models the
already-converted `float(tx.get("amount", 0))` as an exact rational. -/
structure PaymentTx where
  chain : String
  amount : ℚ
  toAddr : String
  -- models the JSON field named to

/-- The policy fields consumed by `eval_payment`.  The numeric thresholds are
`Option`s so that a missing field is distinguishable from an explicit value;
`eval_payment` applies the `policy.get(_, 0)` default itself. -/
structure PayPolicy where
  denylist_addresses : List String
  allowlist_addresses : List String
  mainnet_allowed : Bool
  mainnet_max_usdc : Option ℚ
  max_single_usdc : Option ℚ

/-- The deny-list check of `eval_payment` (line 63): lower-cased recipient
against the lower-cased deny addresses. -/
def payDenyHit (tx : PaymentTx) (policy : PayPolicy) : Bool :=
  (policy.denylist_addresses.map (fun a => (cp a).map lowCp)).contains
    ((cp tx.toAddr).map lowCp)

/-- Check (2) of `eval_payment` (line 66): `allow_addrs and to_addr not in
allow_addrs`. -/
def payAllowMiss (tx : PaymentTx) (policy : PayPolicy) : Bool :=
  policy.allowlist_addresses ≠ [] &&
    !(policy.allowlist_addresses.map (fun a => (cp a).map lowCp)).contains
      ((cp tx.toAddr).map lowCp)

/-- The mainnet kill-switch (lines 69–71): `chain == "mainnet" and not
mainnet_allowed`. -/
def mainnetBlocked (tx : PaymentTx) (policy : PayPolicy) : Bool :=
  (cp tx.chain).map lowCp = cp "mainnet" && !policy.mainnet_allowed

/-- The mainnet threshold check (lines 72–74). -/
def mainnetOver (tx : PaymentTx) (policy : PayPolicy) : Bool :=
  (cp tx.chain).map lowCp = cp "mainnet" &&
    decide (policy.mainnet_max_usdc.getD 0 < tx.amount)

/-- The single-transaction limit check (lines 76–77): `if max_single and
amount > max_single` — note the float truthiness: a missing or zero
`max_single_usdc` disables the check. -/
def singleOver (tx : PaymentTx) (policy : PayPolicy) : Bool :=
  policy.max_single_usdc.getD 0 ≠ 0 && decide (policy.max_single_usdc.getD 0 < tx.amount)

/-- `eval_payment` of `safeguard.py` (lines 53–80). -/
def eval_payment (tx : PaymentTx) (policy : PayPolicy) : Decision × List String :=
  if payDenyHit tx policy then (.DENY, ["Recipient denylisted"])
  else
    let d1 := if payAllowMiss tx policy then max_decision .APPROVE .REVIEW else .APPROVE
    let r1 := if payAllowMiss tx policy then ["Recipient not in allowlist"] else []
    if mainnetBlocked tx policy then (.DENY, ["Mainnet disabled"])
    else
      let d2 := if mainnetOver tx policy then max_decision d1 .REVIEW else d1
      let r2 := if mainnetOver tx policy then r1 ++ ["Exceeds mainnet threshold"] else r1
      let d3 := if singleOver tx policy then max_decision d2 .REVIEW else d2
      let r3 := if singleOver tx policy then r2 ++ ["Exceeds single-tx limit"] else r2
      (d3, reasonsOrOK r3)

end Safeguard

example : cp "0x" = [48, 120] := by decide
example :
    Safeguard.eval_skill ⟨"", "", []⟩ ⟨["alice"], [], [], [], [], false⟩ =
      (.APPROVE, ["OK"]) := by decide
example :
    Safeguard.eval_skill ⟨"eve", "", ["net"]⟩ ⟨["alice"], [], [], [], ["net", "fs"], false⟩ =
      (.REVIEW, ["Author not in allowlist",
                 "Risky permissions: " ++ pyReprList ["net"]]) := by decide
example :
    Safeguard.eval_payment ⟨"base", 1 / 100, "0xDEAD"⟩ ⟨["0xDEAD"], [], false, none, some 100⟩ =
      (.DENY, ["Recipient denylisted"]) := by decide
example :
    Safeguard.eval_payment ⟨"mainnet", 1, "0xaaa"⟩ ⟨[], ["0xbbb"], false, none, none⟩ =
      (.DENY, ["Mainnet disabled"]) := by decide
example :
    Safeguard.eval_payment ⟨"base", 1000000, "0xabc"⟩ ⟨[], [], false, none, none⟩ =
      (.APPROVE, ["OK"]) := by decide
example : strip0x (cp "0x007") = cp "007" := by decide
example : countOpcode (cp "ff") (cp "6000f46000ff") 100 0 0 = .val 1 := by decide
example : countOpcode (cp "ff") (cp "60ff00") 100 0 0 = .val 0 := by decide
example : scanStep (cp "ff") (cp "007") (some (0, 0)) = some (2, 0) := by decide
example : (scanStep (cp "ff") (cp "007"))^[88] (some (2, 0)) = some (2, 0) := by decide
example :
    SafeguardScan.scan_bytecode 100 (cp "0x6000f46000ff") =
      .val ⟨[⟨"selfdestruct", "CRITICAL",
               "Can self-destruct, destroying contract and draining ETH balance", 1⟩,
             ⟨"delegatecall", "HIGH",
               "Executes external code in this contract" ++ apos ++
                 "s storage context (proxy/upgrade risk)", 1⟩],
            some [], 60, some 6⟩ := by decide
example :
    ContractScanner.scan_bytecode 100 (cp "0x60ff00") =
      .val (.report 3 0 "APPROVE" [] []) := by decide
example :
    ContractScanner.scan_bytecode 100 (cp "0xffffff") =
      .val (.report 3 120 "DENY"
        [⟨"selfdestruct", "CRITICAL", "Contract can self-destruct, draining all funds", 3⟩]
        []) := by decide
example :
    SafeguardScan.scan_bytecode 100 (cp "0x") =
      .val ⟨[⟨"empty_contract", "CRITICAL", "No bytecode (EOA or destroyed)", 1⟩],
            none, 100, none⟩ := by decide

/-- Projection onto the `risk_score`/`riskScore` key of a
`contract_scanner.scan_bytecode` result: `none` when the returned value is
the bare empty-contract findings list, which carries no score at all. -/
def ctScore : PyRes ContractScanner.CTResult → Option Nat
  | .val (.report _ s _ _ _) => some s
  | _ => none

/-- The `(name, occurrence count)` pairs of the findings of a
`safeguard_scan.scan_bytecode` result. -/
def sgNameCounts : PyRes SafeguardScan.SGResult → Option (List (String × Nat))
  | .val r => some (r.findings.map fun f => (f.name, f.count))
  | _ => none

/-- The `(name, occurrences)` pairs of the findings of a
`contract_scanner.scan_bytecode` result. -/
def ctNameCounts : PyRes ContractScanner.CTResult → Option (List (String × Nat))
  | .val (.report _ _ _ fs _) => some (fs.map fun f => (f.name, f.occurrences))
  | _ => none

/-- C2: bytecode `0x6000f46000ff` yields exactly one `delegatecall` and one
`selfdestruct` finding, each with occurrence count 1, in both scanners; the
`0xff` of `0x60ff00` is PUSH1-immediate data, so that input yields no
findings at all (in particular zero `selfdestruct` findings). -/
theorem c2_push_skip_examples :
    sgNameCounts (SafeguardScan.scan_bytecode 100 (cp "0x6000f46000ff")) =
      some [("selfdestruct", 1), ("delegatecall", 1)] ∧
    ctNameCounts (ContractScanner.scan_bytecode 100 (cp "0x6000f46000ff")) =
      some [("selfdestruct", 1), ("delegatecall", 1)] ∧
    sgNameCounts (SafeguardScan.scan_bytecode 100 (cp "0x60ff00")) = some [] ∧
    ctNameCounts (ContractScanner.scan_bytecode 100 (cp "0x60ff00")) = some [] := by
  decide

/-- Weighted sum `Σ weight(severity) × occurrence_count` over a findings
list, with the severity weight table shared by both scanners. -/
def sumSevCounts (fs : List SafeguardScan.SGFinding) : Nat :=
  (fs.map fun f => severity_scores f.severity * f.count).sum

theorem runPatterns_score_eq (code : List Nat) (fuel : Nat) :
    ∀ (ps : List SafeguardScan.SGPattern),
      (∀ p ∈ ps, p.score = severity_scores p.severity) →
      ∀ fs ts, SafeguardScan.runPatterns code fuel ps = .val (fs, ts) →
        ts = sumSevCounts fs := by
  intro ps
  induction ps with
  | nil =>
    intro _ fs ts h
    simp only [SafeguardScan.runPatterns] at h
    cases h
    simp [sumSevCounts]
  | cons p ps ih =>
    intro hw fs ts h
    simp only [SafeguardScan.runPatterns] at h
    cases hc : countOpcode ((cp p.opcode).map lowCp) code fuel 0 0 with
    | exn => rw [hc] at h; cases h
    | spin => rw [hc] at h; cases h
    | val cnt =>
      rw [hc] at h
      cases hr : SafeguardScan.runPatterns code fuel ps with
      | exn => rw [hr] at h; cases h
      | spin => rw [hr] at h; cases h
      | val pr =>
        obtain ⟨fs', ts'⟩ := pr
        rw [hr] at h
        have hts' : ts' = sumSevCounts fs' :=
          ih (fun q hq => hw q (List.mem_cons_of_mem p hq)) fs' ts' hr
        have h' : (if 0 < cnt then
              PyRes.val (⟨p.name, p.severity, p.desc, cnt⟩ :: fs', p.score * cnt + ts')
            else PyRes.val (fs', ts')) = PyRes.val (fs, ts) := h
        by_cases hcnt : 0 < cnt
        · rw [if_pos hcnt] at h'
          cases h'
          have hps : p.score = severity_scores p.severity := hw p (List.mem_cons_self p ps)
          simp [sumSevCounts, hps, hts']
        · rw [if_neg hcnt] at h'
          cases h'
          exact hts'

/-- C3 (amended): `safeguard_scan.scan_bytecode` clamps, so its risk score
never exceeds 100, and on any non-empty body it equals
`min(Σ weight(severity) × occurrence_count, 100)`; the `contract_scanner`
variant does not clamp (see the counterexample). -/
theorem c3_clamped_score_safeguard_scan :
    (∀ (fuel : Nat) (code : List Nat) (r : SafeguardScan.SGResult),
        SafeguardScan.scan_bytecode fuel code = .val r → r.risk_score ≤ 100) ∧
    (∀ (fuel : Nat) (code : List Nat) (r : SafeguardScan.SGResult),
        2 ≤ (strip0x code).length →
        SafeguardScan.scan_bytecode fuel code = .val r →
        r.risk_score = min (sumSevCounts r.findings) 100) := by
  constructor
  · intro fuel code r h
    simp only [SafeguardScan.scan_bytecode] at h
    by_cases hlen : (strip0x code).length < 2
    · rw [if_pos hlen] at h
      cases h
      exact le_refl 100
    · rw [if_neg hlen] at h
      cases hr : SafeguardScan.runPatterns (strip0x code) fuel SafeguardScan.sgPatterns with
      | exn => rw [hr] at h; cases h
      | spin => rw [hr] at h; cases h
      | val pr =>
        obtain ⟨fs, total⟩ := pr
        rw [hr] at h
        cases h
        exact Nat.min_le_right total 100
  · intro fuel code r hlen h
    simp only [SafeguardScan.scan_bytecode] at h
    rw [if_neg (by omega)] at h
    cases hr : SafeguardScan.runPatterns (strip0x code) fuel SafeguardScan.sgPatterns with
    | exn => rw [hr] at h; cases h
    | spin => rw [hr] at h; cases h
    | val pr =>
      obtain ⟨fs, total⟩ := pr
      rw [hr] at h
      cases h
      have := runPatterns_score_eq (strip0x code) fuel SafeguardScan.sgPatterns
        (by decide) fs total hr
      simp [this]

/-- Witness for C3 at `0xffffff`: three SELFDESTRUCT occurrences would give
an unclamped 120, and the returned score is clamped to 100. -/
theorem c3_clamped_score_safeguard_scan_witness :
    SafeguardScan.scan_bytecode 100 (cp "0xffffff") =
      .val ⟨[⟨"selfdestruct", "CRITICAL",
              "Can self-destruct, destroying contract and draining ETH balance", 3⟩],
            some [], 100, some 3⟩ ∧
    (⟨[⟨"selfdestruct", "CRITICAL",
        "Can self-destruct, destroying contract and draining ETH balance", 3⟩],
      some [], 100, some 3⟩ : SafeguardScan.SGResult).risk_score ≤ 100 ∧
    2 ≤ (strip0x (cp "0xffffff")).length ∧
    (⟨[⟨"selfdestruct", "CRITICAL",
        "Can self-destruct, destroying contract and draining ETH balance", 3⟩],
      some [], 100, some 3⟩ : SafeguardScan.SGResult).risk_score =
      min (sumSevCounts (⟨[⟨"selfdestruct", "CRITICAL",
        "Can self-destruct, destroying contract and draining ETH balance", 3⟩],
      some [], 100, some 3⟩ : SafeguardScan.SGResult).findings) 100 :=
  ⟨by decide,
   c3_clamped_score_safeguard_scan.1 100 (cp "0xffffff") _ (by decide),
   by decide,
   c3_clamped_score_safeguard_scan.2 100 (cp "0xffffff") _ (by decide) (by decide)⟩

/-- Counterexample for C3 as stated: `contract_scanner.scan_bytecode` returns
the UNCLAMPED sum — on `0xffffff` (three SELFDESTRUCT opcodes) the returned
risk score is 120 > 100. -/
theorem c3_unclamped_contract_scanner_cex :
    ctScore (ContractScanner.scan_bytecode 100 (cp "0xffffff")) = some 120 ∧ 100 < 120 := by
  decide

/-- C4 (amended): any input whose stripped body holds fewer than one full
byte makes `safeguard_scan.scan_bytecode` return exactly the one synthetic
CRITICAL `empty_contract` finding with risk score 100, and 100 maps to the
top verdict `BLOCK` under the caller's threshold mapping. -/
theorem c4_empty_bytecode_safeguard_scan :
    ∀ (fuel : Nat) (code_hex : List Nat),
      (strip0x code_hex).length < 2 →
      SafeguardScan.scan_bytecode fuel code_hex =
        .val ⟨[⟨"empty_contract", "CRITICAL", "No bytecode (EOA or destroyed)", 1⟩],
              none, 100, none⟩ ∧
      SafeguardScan.verdictForScore 100 = "BLOCK" := by
  intro fuel ch h
  refine ⟨?_, by decide⟩
  simp only [SafeguardScan.scan_bytecode]
  rw [if_pos h]

/-- Witness for C4 at the empty bytecode `0x`. -/
theorem c4_empty_bytecode_safeguard_scan_witness :
    (strip0x (cp "0x")).length < 2 ∧
    (SafeguardScan.scan_bytecode 100 (cp "0x") =
        .val ⟨[⟨"empty_contract", "CRITICAL", "No bytecode (EOA or destroyed)", 1⟩],
              none, 100, none⟩ ∧
      SafeguardScan.verdictForScore 100 = "BLOCK") :=
  ⟨by decide, c4_empty_bytecode_safeguard_scan 100 (cp "0x") (by decide)⟩

/-- Counterexample for C4 as stated: `contract_scanner.scan_bytecode` on
`0x` returns only the bare one-finding list — no risk score (and no verdict)
is part of the returned value at all. -/
theorem c4_contract_scanner_empty_no_score_cex :
    ContractScanner.scan_bytecode 100 (cp "0x") =
      .val (.emptyRes "empty_contract" "CRITICAL"
        "Contract has no bytecode (EOA or destroyed)") ∧
    ctScore (ContractScanner.scan_bytecode 100 (cp "0x")) = none := by
  decide

/-- C5: a deny-list hit short-circuits `eval_payment` to
`("DENY", ["Recipient denylisted"])` whatever the amount, chain or allow-list
say, and a denied author or source short-circuits `eval_skill` to
`("DENY", ["Denied author/source"])` with no further checks run. -/
theorem c5_denylist_short_circuit :
    (∀ (tx : Safeguard.PaymentTx) (policy : Safeguard.PayPolicy),
        Safeguard.payDenyHit tx policy = true →
        Safeguard.eval_payment tx policy = (.DENY, ["Recipient denylisted"])) ∧
    (∀ (skill : Safeguard.Skill) (policy : Safeguard.SkillPolicy),
        Safeguard.skillDenyHit skill policy = true →
        Safeguard.eval_skill skill policy = (.DENY, ["Denied author/source"])) := by
  constructor
  · intro tx policy h
    simp [Safeguard.eval_payment, h]
  · intro skill policy h
    simp [Safeguard.eval_skill, h]

/-- Witness for C5: recipient `0xDEAD` on the deny-list with amount `0.01`
is denied, and a deny-listed skill author is denied. -/
theorem c5_denylist_short_circuit_witness :
    (Safeguard.payDenyHit ⟨"base", 1 / 100, "0xDEAD"⟩
        ⟨["0xDEAD"], [], false, none, some 100⟩ = true ∧
      Safeguard.eval_payment ⟨"base", 1 / 100, "0xDEAD"⟩
        ⟨["0xDEAD"], [], false, none, some 100⟩ = (.DENY, ["Recipient denylisted"])) ∧
    (Safeguard.skillDenyHit ⟨"mallory", "", []⟩ ⟨[], ["mallory"], [], [], [], false⟩ = true ∧
      Safeguard.eval_skill ⟨"mallory", "", []⟩ ⟨[], ["mallory"], [], [], [], false⟩ =
        (.DENY, ["Denied author/source"])) :=
  ⟨⟨by decide, c5_denylist_short_circuit.1 _ _ (by decide)⟩,
   ⟨by decide, c5_denylist_short_circuit.2 _ _ (by decide)⟩⟩

/-- C7 (amended): a NON-EMPTY (post-strip) author that is absent from a
non-empty author allow-list — with neither author nor source deny-listed —
escalates `eval_skill` to REVIEW and raises the `Author not in allowlist`
reason.  (The code skips the check entirely for an empty author: see the
counterexample.) -/
theorem c7_author_allowlist_review :
    ∀ (skill : Safeguard.Skill) (policy : Safeguard.SkillPolicy),
      Safeguard.authorMiss skill policy = true →
      Safeguard.skillDenyHit skill policy = false →
      (Safeguard.eval_skill skill policy).1 = .REVIEW ∧
      "Author not in allowlist" ∈ (Safeguard.eval_skill skill policy).2 := by
  intro skill policy hm hd
  simp only [Safeguard.eval_skill, hd, hm, Bool.false_eq_true, if_false, if_true,
    reasonsOrOK]
  constructor
  · split_ifs <;> rfl
  · split_ifs <;> simp_all

/-- Witness for C7: author `eve` against allow-list `["alice"]`. -/
theorem c7_author_allowlist_review_witness :
    Safeguard.authorMiss ⟨"eve", "", []⟩ ⟨["alice"], [], [], [], [], false⟩ = true ∧
    Safeguard.skillDenyHit ⟨"eve", "", []⟩ ⟨["alice"], [], [], [], [], false⟩ = false ∧
    ((Safeguard.eval_skill ⟨"eve", "", []⟩ ⟨["alice"], [], [], [], [], false⟩).1 = .REVIEW ∧
      "Author not in allowlist" ∈
        (Safeguard.eval_skill ⟨"eve", "", []⟩ ⟨["alice"], [], [], [], [], false⟩).2) :=
  ⟨by decide, by decide, c7_author_allowlist_review _ _ (by decide) (by decide)⟩

/-- Counterexample for C7 as stated: with the EMPTY author and the non-empty
allow-list `["alice"]` the allow-list check does not fire at all — the skill
is APPROVEd with reasons `["OK"]`, not escalated to REVIEW. -/
theorem c7_empty_author_not_escalated_cex :
    Safeguard.eval_skill ⟨"", "", []⟩ ⟨["alice"], [], [], [], [], false⟩ =
      (.APPROVE, ["OK"]) ∧
    "Author not in allowlist" ∉
      (Safeguard.eval_skill ⟨"", "", []⟩ ⟨["alice"], [], [], [], [], false⟩).2 := by
  decide

/-- C8: the verdict join `max_decision` over APPROVE < REVIEW < DENY is
commutative, associative and idempotent. -/
theorem c8_max_decision_lattice :
    (∀ a b : Safeguard.Decision,
        Safeguard.max_decision a b = Safeguard.max_decision b a) ∧
    (∀ a b c : Safeguard.Decision,
        Safeguard.max_decision a (Safeguard.max_decision b c) =
          Safeguard.max_decision (Safeguard.max_decision a b) c) ∧
    (∀ a : Safeguard.Decision, Safeguard.max_decision a a = a) := by
  refine ⟨?_, ?_, ?_⟩
  · intro a b; cases a <;> cases b <;> rfl
  · intro a b c; cases a <;> cases b <;> cases c <;> rfl
  · intro a; cases a <;> rfl

/-- C9 (amended): there is no `ConfigError` anywhere in `safeguard.py` — a
missing `max_single_usdc` silently defaults to 0, which disables the
single-transaction-limit check, and the evaluation runs to completion
exactly as it would with an explicit 0. -/
theorem c9_missing_max_single_silently_defaults :
    ∀ (tx : Safeguard.PaymentTx) (policy : Safeguard.PayPolicy),
      policy.max_single_usdc = none →
      Safeguard.eval_payment tx policy =
        Safeguard.eval_payment tx
          (Safeguard.PayPolicy.mk policy.denylist_addresses policy.allowlist_addresses
            policy.mainnet_allowed policy.mainnet_max_usdc (some 0)) ∧
      "Exceeds single-tx limit" ∉ (Safeguard.eval_payment tx policy).2 := by
  intro tx policy hms
  have hs : Safeguard.singleOver tx policy = false := by
    simp [Safeguard.singleOver, hms]
  have hs' : Safeguard.singleOver tx
      (Safeguard.PayPolicy.mk policy.denylist_addresses policy.allowlist_addresses
        policy.mainnet_allowed policy.mainnet_max_usdc (some 0)) = false := by
    simp [Safeguard.singleOver]
  have hdeny : Safeguard.payDenyHit tx
      (Safeguard.PayPolicy.mk policy.denylist_addresses policy.allowlist_addresses
        policy.mainnet_allowed policy.mainnet_max_usdc (some 0)) =
      Safeguard.payDenyHit tx policy := rfl
  have hallow : Safeguard.payAllowMiss tx
      (Safeguard.PayPolicy.mk policy.denylist_addresses policy.allowlist_addresses
        policy.mainnet_allowed policy.mainnet_max_usdc (some 0)) =
      Safeguard.payAllowMiss tx policy := rfl
  have hblock : Safeguard.mainnetBlocked tx
      (Safeguard.PayPolicy.mk policy.denylist_addresses policy.allowlist_addresses
        policy.mainnet_allowed policy.mainnet_max_usdc (some 0)) =
      Safeguard.mainnetBlocked tx policy := rfl
  have hover : Safeguard.mainnetOver tx
      (Safeguard.PayPolicy.mk policy.denylist_addresses policy.allowlist_addresses
        policy.mainnet_allowed policy.mainnet_max_usdc (some 0)) =
      Safeguard.mainnetOver tx policy := rfl
  constructor
  · simp only [Safeguard.eval_payment, hs, hs', hdeny, hallow, hblock, hover]
  · simp only [Safeguard.eval_payment, hs, Bool.false_eq_true, if_false, reasonsOrOK]
    split_ifs <;> simp

/-- Witness for C9: concrete policy with no `max_single_usdc` field. -/
theorem c9_missing_max_single_silently_defaults_witness :
    (Safeguard.PayPolicy.mk [] [] false none none).max_single_usdc = none ∧
    (Safeguard.eval_payment ⟨"base", 1000000, "0xabc"⟩ ⟨[], [], false, none, none⟩ =
        Safeguard.eval_payment ⟨"base", 1000000, "0xabc"⟩
          (Safeguard.PayPolicy.mk [] [] false none (some 0)) ∧
      "Exceeds single-tx limit" ∉
        (Safeguard.eval_payment ⟨"base", 1000000, "0xabc"⟩ ⟨[], [], false, none, none⟩).2) :=
  ⟨rfl, c9_missing_max_single_silently_defaults _ _ rfl⟩

/-- Counterexample for C9 as stated: with every numeric field missing from
the policy, `eval_payment` of a million-USDC transfer completes normally and
returns APPROVE/["OK"] — no terminal `ConfigError` exists in the code. -/
theorem c9_incomplete_policy_approves_cex :
    Safeguard.eval_payment ⟨"base", 1000000, "0xabc"⟩ ⟨[], [], false, none, none⟩ =
      (.APPROVE, ["OK"]) := by
  decide

theorem scanStep_oneStep :
    scanStep (cp "ff") (cp "007") (some (0, 0)) = some (2, 0) := by decide

theorem scanStep_cycle :
    (scanStep (cp "ff") (cp "007"))^[88] (some (2, 0)) = some (2, 0) := by decide

theorem scanStep_window :
    ∀ r < 88, ((scanStep (cp "ff") (cp "007"))^[r] (some (2, 0))).isSome = true := by decide

theorem scanStep_from_two_running :
    ∀ m : Nat, ((scanStep (cp "ff") (cp "007"))^[m] (some (2, 0))).isSome = true := by
  intro m
  have hmod : m % 88 < 88 := Nat.mod_lt _ (by norm_num)
  have hdecomp : m % 88 + 88 * (m / 88) = m := by omega
  calc ((scanStep (cp "ff") (cp "007"))^[m] (some (2, 0))).isSome
      = ((scanStep (cp "ff") (cp "007"))^[m % 88 + 88 * (m / 88)] (some (2, 0))).isSome := by
        rw [hdecomp]
    _ = ((scanStep (cp "ff") (cp "007"))^[m % 88]
          ((scanStep (cp "ff") (cp "007"))^[88 * (m / 88)] (some (2, 0)))).isSome := by
        rw [Function.iterate_add_apply]
    _ = ((scanStep (cp "ff") (cp "007"))^[m % 88] (some (2, 0))).isSome := by
        rw [Function.iterate_mul, Function.iterate_fixed scanStep_cycle (m / 88)]
    _ = true := scanStep_window (m % 88) hmod

/-- C1 is FALSE of the code: on the truncated bytecode `0x007` the opcode
walk never terminates.  The trailing lone `7` satisfies
`"60" <= "7" <= "7f"` in Python string order, so `int("7", 16) - 0x5f = -88`
drives the cursor from 2 to -172, from where it crawls back up to 2 in 87
further iterations and repeats forever (period 88): every iterate of the
loop-step function is still in the running state (`isSome`). -/
theorem c1_truncated_push_infinite_loop :
    strip0x (cp "0x007") = cp "007" ∧
    ∀ n : Nat, ((scanStep (cp "ff") (cp "007"))^[n] (some (0, 0))).isSome = true := by
  refine ⟨by decide, ?_⟩
  intro n
  cases n with
  | zero => rfl
  | succ m =>
    rw [Function.iterate_succ_apply, scanStep_oneStep]
    exact scanStep_from_two_running m

/-- Modelled from the spec (§4.4): the reasons the `eval_skill` checks raise,
listed in check order — the spec's "accumulated list of human-readable
reasons ... insertion order is preserved". -/
def skillReasonsInOrder (skill : Safeguard.Skill) (policy : Safeguard.SkillPolicy) :
    List String :=
  (if Safeguard.authorMiss skill policy then ["Author not in allowlist"] else []) ++
  (if Safeguard.sourceMiss skill policy then ["Source not in allowlist"] else []) ++
  (if Safeguard.riskySorted skill policy ≠ [] then
    ["Risky permissions: " ++ pyReprList (Safeguard.riskySorted skill policy)] else []) ++
  (if policy.block_new_skills then ["Block new skills enabled"] else [])

/-- Modelled from the spec (§4.4): the reasons the `eval_payment` checks
raise, listed in check order. -/
def paymentReasonsInOrder (tx : Safeguard.PaymentTx) (policy : Safeguard.PayPolicy) :
    List String :=
  (if Safeguard.payAllowMiss tx policy then ["Recipient not in allowlist"] else []) ++
  (if Safeguard.mainnetOver tx policy then ["Exceeds mainnet threshold"] else []) ++
  (if Safeguard.singleOver tx policy then ["Exceeds single-tx limit"] else [])

/-- C6 (amended): as long as no DENY short-circuit fires, the returned reason
list is exactly the concatenation, in check order, of the reasons raised by
each check (with the `["OK"]` default when none fires) — nothing reordered,
nothing dropped.  The claim's unconditional form is false: the
mainnet-disabled short-circuit returns a fresh `["Mainnet disabled"]` list,
discarding an allow-list-miss reason already raised (see counterexample). -/
theorem c6_reasons_in_check_order :
    (∀ (skill : Safeguard.Skill) (policy : Safeguard.SkillPolicy),
        Safeguard.skillDenyHit skill policy = false →
        (Safeguard.eval_skill skill policy).2 =
          reasonsOrOK (skillReasonsInOrder skill policy)) ∧
    (∀ (tx : Safeguard.PaymentTx) (policy : Safeguard.PayPolicy),
        Safeguard.payDenyHit tx policy = false →
        Safeguard.mainnetBlocked tx policy = false →
        (Safeguard.eval_payment tx policy).2 =
          reasonsOrOK (paymentReasonsInOrder tx policy)) := by
  constructor
  · intro skill policy hd
    simp only [Safeguard.eval_skill, skillReasonsInOrder, hd, Bool.false_eq_true, if_false]
    split_ifs <;> simp [reasonsOrOK]
  · intro tx policy hd hm
    simp only [Safeguard.eval_payment, paymentReasonsInOrder, hd, hm,
      Bool.false_eq_true, if_false]
    split_ifs <;> simp [reasonsOrOK]

/-- Witness for C6: a skill tripping three checks collects all three reasons
in check order, and a non-mainnet payment over the single-tx limit keeps its
allow-list-miss reason. -/
theorem c6_reasons_in_check_order_witness :
    (Safeguard.skillDenyHit ⟨"eve", "web", ["net"]⟩
        ⟨["alice"], [], ["repo"], [], ["net"], true⟩ = false ∧
      (Safeguard.eval_skill ⟨"eve", "web", ["net"]⟩
          ⟨["alice"], [], ["repo"], [], ["net"], true⟩).2 =
        reasonsOrOK (skillReasonsInOrder ⟨"eve", "web", ["net"]⟩
          ⟨["alice"], [], ["repo"], [], ["net"], true⟩)) ∧
    (Safeguard.payDenyHit ⟨"base", 500, "0xaaa"⟩ ⟨[], ["0xbbb"], false, none, some 100⟩ =
        false ∧
      Safeguard.mainnetBlocked ⟨"base", 500, "0xaaa"⟩
        ⟨[], ["0xbbb"], false, none, some 100⟩ = false ∧
      (Safeguard.eval_payment ⟨"base", 500, "0xaaa"⟩
          ⟨[], ["0xbbb"], false, none, some 100⟩).2 =
        reasonsOrOK (paymentReasonsInOrder ⟨"base", 500, "0xaaa"⟩
          ⟨[], ["0xbbb"], false, none, some 100⟩)) :=
  ⟨⟨by decide, c6_reasons_in_check_order.1 _ _ (by decide)⟩,
   ⟨by decide, by decide, c6_reasons_in_check_order.2 _ _ (by decide) (by decide)⟩⟩

/-- Counterexample for C6 as stated: the allow-list-miss check fires (its
reason is raised), but the later mainnet-disabled check denies the payment
with a fresh reason list — the earlier reason is discarded from the output. -/
theorem c6_mainnet_deny_discards_reason_cex :
    Safeguard.payAllowMiss ⟨"mainnet", 1, "0xaaa"⟩ ⟨[], ["0xbbb"], false, none, none⟩ =
      true ∧
    Safeguard.eval_payment ⟨"mainnet", 1, "0xaaa"⟩ ⟨[], ["0xbbb"], false, none, none⟩ =
      (.DENY, ["Mainnet disabled"]) ∧
    "Recipient not in allowlist" ∉
      (Safeguard.eval_payment ⟨"mainnet", 1, "0xaaa"⟩
        ⟨[], ["0xbbb"], false, none, none⟩).2 := by
  decide

theorem lowCp_idem (n : Nat) : lowCp (lowCp n) = lowCp n := by
  simp only [lowCp]
  split_ifs <;> omega

theorem map_lowCp_idem (s : List Nat) : (s.map lowCp).map lowCp = s.map lowCp := by
  induction s with
  | nil => rfl
  | cons a t ih => simp [lowCp_idem, ih]

theorem pyslice_map_lowCp (s : List Nat) (a b : Int) :
    pyslice (s.map lowCp) a b = (pyslice s a b).map lowCp := by
  simp only [pyslice, List.length_map, ← List.map_drop, ← List.map_take]

theorem countOpcode_zero (opc code : List Nat) (i : Int) (c : Nat) :
    countOpcode opc code 0 i c =
      if i < (code.length : Int) then PyRes.spin else PyRes.val c := rfl

theorem countOpcode_succ (opc code : List Nat) (f : Nat) (i : Int) (c : Nat) :
    countOpcode opc code (f + 1) i c =
      if i < (code.length : Int) then
        (if lexLe (cp "60") ((pyslice code i (i + 2)).map lowCp) &&
            lexLe ((pyslice code i (i + 2)).map lowCp) (cp "7f") then
          match hexVal ((pyslice code i (i + 2)).map lowCp) with
          | none => PyRes.exn
          | some v => countOpcode opc code f (i + 2 + ((v : Int) - 95) * 2)
              (if (pyslice code i (i + 2)).map lowCp = opc then c + 1 else c)
        else countOpcode opc code f (i + 2)
          (if (pyslice code i (i + 2)).map lowCp = opc then c + 1 else c))
      else PyRes.val c := rfl

/-- The opcode walk only ever looks at the lower-cased byte, so lower-casing
the whole body beforehand changes nothing. -/
theorem countOpcode_lower (opc code : List Nat) :
    ∀ (fuel : Nat) (i : Int) (c : Nat),
      countOpcode opc (code.map lowCp) fuel i c = countOpcode opc code fuel i c := by
  intro fuel
  induction fuel with
  | zero =>
    intro i c
    rw [countOpcode_zero, countOpcode_zero, List.length_map]
  | succ f ih =>
    intro i c
    rw [countOpcode_succ, countOpcode_succ, List.length_map, pyslice_map_lowCp,
      map_lowCp_idem]
    simp only [ih]

theorem runPatterns_lower (code : List Nat) (fuel : Nat) :
    ∀ ps, SafeguardScan.runPatterns (code.map lowCp) fuel ps =
      SafeguardScan.runPatterns code fuel ps := by
  intro ps
  induction ps with
  | nil => rfl
  | cons p ps ih => simp only [SafeguardScan.runPatterns, countOpcode_lower, ih]

theorem selectorScan_lower (code : List Nat) :
    SafeguardScan.selectorScan (code.map lowCp) = SafeguardScan.selectorScan code := by
  simp only [SafeguardScan.selectorScan, map_lowCp_idem]

theorem cp_0x : cp "0x" = [48, 120] := by decide

theorem cp_0X : cp "0X" = [48, 88] := by decide

/-- Lower-casing commutes with the `0x` strip, provided the input does not
begin with the upper-case prefix `0X` (which only the lower-cased copy would
strip). -/
theorem strip0x_map_lowCp (s : List Nat) (h : s.take 2 ≠ cp "0X") :
    strip0x (s.map lowCp) = (strip0x s).map lowCp := by
  match s with
  | [] => rfl
  | [a] =>
    simp only [strip0x, cp_0x, List.map_cons, List.map_nil, List.take]
    have h1 : ¬([lowCp a] = [48, 120]) := by simp
    have h2 : ¬([a] = [48, 120]) := by simp
    rw [if_neg h1, if_neg h2]
    rfl
  | a :: b :: t =>
    have htake : (a :: b :: t).take 2 = [a, b] := rfl
    rw [htake, cp_0X] at h
    have hla : lowCp a = 48 ↔ a = 48 := by simp only [lowCp]; split_ifs <;> omega
    have hlb : lowCp b = 120 ↔ b = 120 ∨ b = 88 := by
      simp only [lowCp]; split_ifs <;> omega
    by_cases hx : a = 48 ∧ b = 120
    · obtain ⟨ha, hb⟩ := hx
      subst ha; subst hb
      simp [strip0x, cp_0x, lowCp]
    · have hm : ¬(lowCp a = 48 ∧ lowCp b = 120) := by
        intro ⟨h1, h2⟩
        rcases hlb.mp h2 with h88 | h120
        · exact hx ⟨hla.mp h1, h88⟩
        · exact h (by rw [hla.mp h1, h120])
      simp only [strip0x, cp_0x, List.map_cons]
      have hc1 : ¬((lowCp a :: lowCp b :: t.map lowCp).take 2 = [48, 120]) := by
        simp only [List.take, List.cons.injEq]
        intro ⟨h1, h2, _⟩
        exact hm ⟨h1, h2⟩
      have hc2 : ¬((a :: b :: t).take 2 = [48, 120]) := by
        simp only [List.take, List.cons.injEq]
        intro ⟨h1, h2, _⟩
        apply hm
        rw [h1, h2]
        constructor
        · simp [lowCp]
        · simp [lowCp]
      rw [if_neg hc1, if_neg hc2]
      rfl

/-- C10 (amended): `safeguard_scan.scan_bytecode` is letter-case invariant —
for any input not beginning with the (never-stripped) upper-case prefix
`0X`, scanning the lower-cased string returns exactly the same findings,
counts, selectors and risk score as scanning the original.  The
`contract_scanner` variant is NOT: its selector search is case-sensitive
(see the counterexample). -/
theorem c10_scan_bytecode_case_invariant :
    ∀ (fuel : Nat) (s : List Nat), s.take 2 ≠ cp "0X" →
      SafeguardScan.scan_bytecode fuel (s.map lowCp) =
        SafeguardScan.scan_bytecode fuel s := by
  intro fuel s h
  simp only [SafeguardScan.scan_bytecode, strip0x_map_lowCp s h, List.length_map,
    runPatterns_lower, selectorScan_lower]

/-- Witness for C10 on the mixed-case input `0xF4AB`. -/
theorem c10_scan_bytecode_case_invariant_witness :
    (cp "0xF4AB").take 2 ≠ cp "0X" ∧
    SafeguardScan.scan_bytecode 100 ((cp "0xF4AB").map lowCp) =
      SafeguardScan.scan_bytecode 100 (cp "0xF4AB") :=
  ⟨by decide, c10_scan_bytecode_case_invariant 100 (cp "0xF4AB") (by decide)⟩

/-- Projection onto the `knownSelectors` key of a
`contract_scanner.scan_bytecode` report. -/
def ctSels : PyRes ContractScanner.CTResult → Option (List ContractScanner.CTSelFound)
  | .val (.report _ _ _ _ sels) => some sels
  | _ => none

/-- Counterexample for C10 as stated: `contract_scanner`'s selector search is
case-sensitive — the upper-case body `A9059CBB` yields NO selector
detection, while its lower-cased copy detects `transfer(address,uint256)`. -/
theorem c10_contract_scanner_selector_case_cex :
    ctSels (ContractScanner.scan_bytecode 100 (cp "0xA9059CBB")) = some [] ∧
    ctSels (ContractScanner.scan_bytecode 100 ((cp "0xA9059CBB").map lowCp)) =
      some [⟨"transfer(address,uint256)", "LOW", "Standard ERC20 — check context",
        "0xa9059cbb"⟩] := by
  decide
